import Mathlib

/-!
Verification development for the air-quality-monitering repository.

The Python source is shallowly embedded: numeric CSV cell values are
rationals (ℚ), missing values (NaN after pandas coercion) are `Option.none`,
timestamps are integers (ℤ, ordered like parsed datetimes), and pandas
frames are lists of row structures.  Floating-point square roots are
modelled by `Real.sqrt`; every other quantity stays in exact arithmetic.
-/

namespace AirQual

/-! ## Basic list statistics helpers (pandas Series semantics)

`meanQ`, `medianQ`, `listMin`, `listMax`, `sampleVar?` model the pandas
Series reductions `mean`, `median`, `min`, `max`, `var(ddof=1)` applied to
the non-missing values of a column.  pandas skips NaN, so callers pass the
list of non-missing values.  `sampleVar?` is `none` (NaN) when fewer than
two values remain, matching pandas `std`/`var` with `ddof=1`.
-/

def meanQ (l : List ℚ) : ℚ := l.sum / l.length

def listMin : List ℚ → ℚ
  | [] => 0
  | x :: xs => xs.foldl min x

def listMax : List ℚ → ℚ
  | [] => 0
  | x :: xs => xs.foldl max x

def listMinZ : List ℤ → ℤ
  | [] => 0
  | x :: xs => xs.foldl min x

def listMaxZ : List ℤ → ℤ
  | [] => 0
  | x :: xs => xs.foldl max x

def medianQ (l : List ℚ) : ℚ :=
  let s := l.insertionSort (· ≤ ·)
  if l.length % 2 = 1 then s.getD (l.length / 2) 0
  else (s.getD (l.length / 2 - 1) 0 + s.getD (l.length / 2) 0) / 2

/-- Sample variance with `ddof = 1`; `none` models the NaN pandas returns
when fewer than two values are present. -/
def sampleVar? (l : List ℚ) : Option ℚ :=
  if l.length ≤ 1 then none
  else some ((l.map (fun v => (v - meanQ l) ^ 2)).sum / ((l.length : ℚ) - 1))

/-- Python `round(x, 2)` on a rational: scale by 100, round to nearest integer,
scale back (Python rounding at exact ties is immaterial to the claims). -/
def roundQ2 (q : ℚ) : ℚ := (round (q * 100) : ℤ) / 100

/-! ## Sums over a list of (x, y) pairs -/

def sxF (p : List (ℚ × ℚ)) : ℚ := (p.map Prod.fst).sum

def syF (p : List (ℚ × ℚ)) : ℚ := (p.map Prod.snd).sum

def sxyF (p : List (ℚ × ℚ)) : ℚ := (p.map (fun q => q.1 * q.2)).sum

def sqxF (p : List (ℚ × ℚ)) : ℚ := (p.map (fun q => q.1 ^ 2)).sum

def sqyF (p : List (ℚ × ℚ)) : ℚ := (p.map (fun q => q.2 ^ 2)).sum

/-- Centered sum of squares of the first coordinates, `Σ (x - x̄)²`. -/
def sxxC (p : List (ℚ × ℚ)) : ℚ :=
  (p.map (fun q => (q.1 - sxF p / p.length) ^ 2)).sum

/-- Centered sum of squares of the second coordinates, `Σ (y - ȳ)²`. -/
def syyC (p : List (ℚ × ℚ)) : ℚ :=
  (p.map (fun q => (q.2 - syF p / p.length) ^ 2)).sum

/-- Centered cross sum `Σ (x - x̄)(y - ȳ)`. -/
def scovC (p : List (ℚ × ℚ)) : ℚ :=
  (p.map (fun q => (q.1 - sxF p / p.length) * (q.2 - syF p / p.length))).sum

/-- Model of the pandas Pearson correlation `df[[a, b]].corr().iloc[0, 1]`
used by `calculate_correlations` in `python/analysis.py`: the centered
covariance over the product of the standard deviations.  When either
series has zero variance (including the empty and one-row cases) the
floating-point computation is 0/0 = NaN, modelled as `none`.
(`calculate_correlations` then applies `round(·, 3)` to this value, which
maps NaN to NaN and preserves exact equality of the underlying values.) -/
noncomputable def pearsonCorr (p : List (ℚ × ℚ)) : Option ℝ :=
  if sxxC p = 0 ∨ syyC p = 0 then none
  else some ((scovC p : ℝ) / Real.sqrt ((sxxC p * syyC p : ℚ) : ℝ))

/-- Function `calculate_correlation` from `python/correlation_large.py` (lines
146-158): the closed-form Pearson coefficient over the running sums
`Σxy, Σx, Σy, Σx², Σy²` and the count `n`; a zero denominator yields `0`.
(`np.sqrt` of the product is NaN for negative arguments, which cannot
arise from sums accumulated from actual data, by Cauchy-Schwarz;
`Real.sqrt` maps such arguments to 0.) -/
noncomputable def calculateCorrelation (xySum xSum ySum xSqSum ySqSum : ℚ) (n : ℕ) : ℝ :=
  let numerator : ℚ := n * xySum - xSum * ySum
  let denominator : ℝ := Real.sqrt (((n * xSqSum - xSum ^ 2) * (n * ySqSum - ySum ^ 2) : ℚ) : ℝ)
  if denominator = 0 then 0 else (numerator : ℝ) / denominator

/-! ## Parsed rows

`SRow` is one CSV row after timestamp parsing and numeric coercion: a
`created_at` instant plus the four metric cells, each possibly missing
(NaN).  It serves both as a chunk row for the streaming aggregator of
`python/correlation_large.py` and as a resolved frame row produced by
`load_data` in `python/analyze.py`.
-/

structure SRow where
  created_at : ℤ
  pm25 : Option ℚ
  pm10 : Option ℚ
  temperature : Option ℚ
  humidity : Option ℚ
deriving DecidableEq, Repr

/-- A row survives `chunk.dropna(subset=['pm25','pm10','temperature','humidity'])`
exactly when all four metric cells are non-missing. -/
def allPresent (r : SRow) : Bool :=
  r.pm25.isSome && r.pm10.isSome && r.temperature.isSome && r.humidity.isSome

/-- Pairwise-complete extraction of an (x, y) column pair, as pandas
`df[[a, b]].corr()` uses: keep exactly the rows where both members of the
pair are non-missing. -/
def pairsOf (fx fy : SRow → Option ℚ) (rows : List SRow) : List (ℚ × ℚ) :=
  rows.filterMap (fun r =>
    match fx r, fy r with
    | some a, some b => some (a, b)
    | _, _ => none)

/-! ## Streaming aggregator (`create_correlation_large`) -/

/-- The running-sum accumulator variables initialised at the top of
`create_correlation_large` (lines 10-20 of `python/correlation_large.py`). -/
structure StreamAcc where
  pm25_temp_products : ℚ
  pm25_hum_products : ℚ
  pm25_sum : ℚ
  pm10_sum : ℚ
  temp_sum : ℚ
  hum_sum : ℚ
  pm25_squared_sum : ℚ
  temp_squared_sum : ℚ
  hum_squared_sum : ℚ
  count : ℕ
deriving DecidableEq, Repr

def StreamAcc.zero : StreamAcc := ⟨0, 0, 0, 0, 0, 0, 0, 0, 0, 0⟩

def StreamAcc.add (a b : StreamAcc) : StreamAcc :=
  ⟨a.pm25_temp_products + b.pm25_temp_products, a.pm25_hum_products + b.pm25_hum_products,
   a.pm25_sum + b.pm25_sum, a.pm10_sum + b.pm10_sum, a.temp_sum + b.temp_sum,
   a.hum_sum + b.hum_sum, a.pm25_squared_sum + b.pm25_squared_sum,
   a.temp_squared_sum + b.temp_squared_sum, a.hum_squared_sum + b.hum_squared_sum,
   a.count + b.count⟩

/-- The per-chunk sums accumulated by lines 55-68 of
`python/correlation_large.py`; the `getD 0` extractions are only applied
to rows that already passed the four-column `dropna`. -/
def chunkSums (rows : List SRow) : StreamAcc :=
  ⟨(rows.map (fun r => r.pm25.getD 0 * r.temperature.getD 0)).sum,
   (rows.map (fun r => r.pm25.getD 0 * r.humidity.getD 0)).sum,
   (rows.map (fun r => r.pm25.getD 0)).sum,
   (rows.map (fun r => r.pm10.getD 0)).sum,
   (rows.map (fun r => r.temperature.getD 0)).sum,
   (rows.map (fun r => r.humidity.getD 0)).sum,
   (rows.map (fun r => r.pm25.getD 0 ^ 2)).sum,
   (rows.map (fun r => r.temperature.getD 0 ^ 2)).sum,
   (rows.map (fun r => r.humidity.getD 0 ^ 2)).sum,
   rows.length⟩

/-- The date filter of lines 33-35: it is applied only when BOTH a start
and an end bound were provided (`if start and end:`). -/
def dateFilter (start stop : Option ℤ) (chunk : List SRow) : List SRow :=
  match start, stop with
  | some s, some e => chunk.filter (fun r => decide (s ≤ r.created_at) && decide (r.created_at ≤ e))
  | _, _ => chunk

/-- One iteration of the chunk loop (lines 30-68): date filter, skip if
empty, drop rows with any missing metric, skip if empty, else add this
chunk's sums to the accumulator. -/
def processChunk (start stop : Option ℤ) (acc : StreamAcc) (chunk : List SRow) : StreamAcc :=
  let c1 := dateFilter start stop chunk
  if c1.length = 0 then acc
  else
    let c2 := c1.filter allPresent
    if c2.length = 0 then acc
    else acc.add (chunkSums c2)

/-- The whole chunk loop: fold `processChunk` over the file's chunks
starting from the zero accumulator. -/
def runStream (start stop : Option ℤ) (chunks : List (List SRow)) : StreamAcc :=
  chunks.foldl (processChunk start stop) StreamAcc.zero

/-- The pm25 × temperature streaming correlation (line 93 of
`python/correlation_large.py`). -/
noncomputable def streamCorrTemp (start stop : Option ℤ) (chunks : List (List SRow)) : ℝ :=
  let a := runStream start stop chunks
  calculateCorrelation a.pm25_temp_products a.pm25_sum a.temp_sum
    a.pm25_squared_sum a.temp_squared_sum a.count

/-- The pm25 × humidity streaming correlation (line 94). -/
noncomputable def streamCorrHum (start stop : Option ℤ) (chunks : List (List SRow)) : ℝ :=
  let a := runStream start stop chunks
  calculateCorrelation a.pm25_hum_products a.pm25_sum a.hum_sum
    a.pm25_squared_sum a.hum_squared_sum a.count

/-! ## Raw CSV tables and field resolution

A raw table keeps the header (`cols`) and, per row, the parsed
`created_at` cell (`none` = NaT after `errors='coerce'`) together with the
remaining cells as an association list from column name to possibly
missing numeric value (`to_numeric(..., errors='coerce')` is modelled
upstream: an unparsable cell is already `none`).
-/

structure RawRow where
  created_at : Option ℤ
  fields : List (String × Option ℚ)
deriving DecidableEq, Repr

structure RawTable where
  cols : List String
  rows : List RawRow
deriving DecidableEq, Repr

/-- Reading a cell of a named column from a row. -/
def lookupField (fields : List (String × Option ℚ)) (c : String) : Option ℚ :=
  match fields.find? (fun p => p.1 = c) with
  | some p => p.2
  | none => none

inductive Metric where
  | pm25
  | pm10
  | temperature
  | humidity
deriving DecidableEq, Repr

def semName : Metric → String
  | .pm25 => "pm25"
  | .pm10 => "pm10"
  | .temperature => "temperature"
  | .humidity => "humidity"

def legName : Metric → String
  | .pm25 => "field3"
  | .pm10 => "field4"
  | .temperature => "field2"
  | .humidity => "field1"

/-- The `FIELD_MAPPING` dict of `python/analyze.py` (lines 24-29); note
that each candidate list puts the legacy code BEFORE the semantic name. -/
def fieldMapping : Metric → List String
  | .pm25 => ["field3", "pm25"]
  | .pm10 => ["field4", "pm10"]
  | .temperature => ["field2", "temperature"]
  | .humidity => ["field1", "humidity"]

/-- The column-resolution loop of `load_data` (lines 80-90 of
`python/analyze.py`): take the first candidate column present in the
frame; `none` means no candidate was found and the target column is
filled with NaN. -/
def resolveLoad (m : Metric) (cols : List String) : Option String :=
  (fieldMapping m).find? (fun c => cols.contains c)

/-- The column resolution of `analyze_air_quality_data` (lines 80-98 of
`python/analysis.py`): the semantic name if present, else the legacy
code, else `None` — e.g.
`pm25_col = 'pm25' if has_pm25 else ('field3' if has_field3 else None)`. -/
def resolveAnalysis (cols : List String) (sem leg : String) : Option String :=
  if cols.contains sem then some sem
  else if cols.contains leg then some leg
  else none

/-! ## `load_data` (`python/analyze.py`, lines 51-110) -/

/-- Sort key step of `df.sort_values('created_at')` (stable). -/
def tsLE (a b : ℤ × List (String × Option ℚ)) : Prop := a.1 ≤ b.1

instance : DecidableRel tsLE := fun a b => inferInstanceAs (Decidable (a.1 ≤ b.1))

/-- The resolved value of metric `m` for a parsed row, given the column
chosen by `resolveLoad`. -/
def resolvedCell (cols : List String) (m : Metric) (fields : List (String × Option ℚ)) : Option ℚ :=
  match resolveLoad m cols with
  | some c => lookupField fields c
  | none => none

/-- One parsed row of the frame after the field-mapping loop: the four
target columns are filled from the columns chosen by `resolveLoad`. -/
def resolveRow (cols : List String) (pr : ℤ × List (String × Option ℚ)) : SRow :=
  SRow.mk pr.1 (resolvedCell cols .pm25 pr.2) (resolvedCell cols .pm10 pr.2)
    (resolvedCell cols .temperature pr.2) (resolvedCell cols .humidity pr.2)

/-- The timestamp-parse step of `load_data`: coerce `created_at`, drop
rows where it is NaT. -/
def parseRows (rows : List RawRow) : List (ℤ × List (String × Option ℚ)) :=
  rows.filterMap (fun r => r.created_at.map (fun ts => (ts, r.fields)))

/-- Function `load_data`: drop rows with unparsable `created_at`, sort by
timestamp, resolve the four metric columns via `FIELD_MAPPING`, apply the
optional start/end filters, and drop rows missing pm25 or pm10.
A missing file (or a read exception) gives `none`. -/
def loadData (file : Option RawTable) (startDate endDate : Option ℤ) : Option (List SRow) :=
  match file with
  | none => none
  | some t =>
    let sorted := (parseRows t.rows).insertionSort tsLE
    let resolved : List SRow := sorted.map (resolveRow t.cols)
    let f1 : List SRow := match startDate with
      | some s => resolved.filter (fun r => decide (s ≤ r.created_at))
      | none => resolved
    let f2 : List SRow := match endDate with
      | some e => f1.filter (fun r => decide (r.created_at ≤ e))
      | none => f1
    some (f2.filter (fun r => r.pm25.isSome && r.pm10.isSome))

/-! ## AQI bucketing (`python/analyze.py`, lines 32-49 and 175-200) -/

structure AqiEntry where
  maxVal : ℚ
  level : String
  color : String
deriving DecidableEq, Repr

/-- Table `AQI_LEVELS["pm25"]`. -/
def aqiPm25 : List AqiEntry :=
  [⟨12, "Good", "green"⟩,
   ⟨35.4, "Moderate", "yellow"⟩,
   ⟨55.4, "Unhealthy for Sensitive Groups", "orange"⟩,
   ⟨150.4, "Unhealthy", "red"⟩,
   ⟨250.4, "Very Unhealthy", "purple"⟩,
   ⟨500, "Hazardous", "maroon"⟩]

/-- Table `AQI_LEVELS["pm10"]`. -/
def aqiPm10 : List AqiEntry :=
  [⟨54, "Good", "green"⟩,
   ⟨154, "Moderate", "yellow"⟩,
   ⟨254, "Unhealthy for Sensitive Groups", "orange"⟩,
   ⟨354, "Unhealthy", "red"⟩,
   ⟨424, "Very Unhealthy", "purple"⟩,
   ⟨604, "Hazardous", "maroon"⟩]

/-- Lookup `AQI_LEVELS.get(pollutant, AQI_LEVELS["pm25"])`: any pollutant other
than `"pm10"` falls back to the pm25 table. -/
def aqiTable (pollutant : String) : List AqiEntry :=
  if pollutant = "pm10" then aqiPm10 else aqiPm25

structure LevelInfo where
  level : String
  color : String
deriving DecidableEq, Repr

/-- The `for level_info in levels` loop of `get_air_quality_level`. -/
def findLevel : List AqiEntry → ℚ → LevelInfo
  | [], _ => ⟨"Extremely Hazardous", "black"⟩
  | e :: rest, v => if v ≤ e.maxVal then ⟨e.level, e.color⟩ else findLevel rest v

/-- Function `get_air_quality_level` (lines 175-200 of `python/analyze.py`):
NaN (`none`) gives Unknown, otherwise scan the pollutant's threshold
table in order and return the first bucket whose `max` the value does not
exceed; past the last bucket the result is Extremely Hazardous. -/
def getAirQualityLevel (value : Option ℚ) (pollutant : String) : LevelInfo :=
  match value with
  | none => ⟨"Unknown", "gray"⟩
  | some v => findLevel (aqiTable pollutant) v

/-! ## `calculate_statistics` (`python/analyze.py`, lines 112-173) -/

/-- One `{mean, median, min, max, std}` block; `std` is
`Real.sqrt` of the ddof-1 sample variance, `none` modelling the NaN that
pandas `std` yields on a single observation. -/
structure MetricSummary where
  mean : ℚ
  median : ℚ
  minV : ℚ
  maxV : ℚ
  std : Option ℝ

noncomputable def metricSummary (l : List ℚ) : MetricSummary :=
  ⟨meanQ l, medianQ l, listMin l, listMax l, (sampleVar? l).map (fun q => Real.sqrt (q : ℝ))⟩

structure Stats where
  count : ℕ
  date_range : Option (ℤ × ℤ)
  pm25 : Option MetricSummary
  pm10 : Option MetricSummary
  temperature : Option MetricSummary
  humidity : Option MetricSummary
  pm25_air : Option LevelInfo
  pm10_air : Option LevelInfo
  error : Option String

def emptyStats : Stats :=
  ⟨0, none, none, none, none, none, none, none, some "No data available"⟩

def pm25Vals (rows : List SRow) : List ℚ := rows.filterMap (fun r => r.pm25)

def pm10Vals (rows : List SRow) : List ℚ := rows.filterMap (fun r => r.pm10)

def tempVals (rows : List SRow) : List ℚ := rows.filterMap (fun r => r.temperature)

def humVals (rows : List SRow) : List ℚ := rows.filterMap (fun r => r.humidity)

/-- Function `calculate_statistics`: the empty/`None` frame short-circuits to
`{"count": 0, "error": "No data available"}`; otherwise per-metric
summaries over the non-missing values, temperature/humidity only when the
column is not entirely NaN, and the AQI buckets computed from the pm25
and pm10 means. -/
noncomputable def calculateStatistics (odf : Option (List SRow)) : Stats :=
  match odf with
  | none => emptyStats
  | some rows =>
    if rows.length = 0 then emptyStats
    else
      { count := rows.length
        date_range := some (listMinZ (rows.map (fun r => r.created_at)),
                            listMaxZ (rows.map (fun r => r.created_at)))
        pm25 := some (metricSummary (pm25Vals rows))
        pm10 := some (metricSummary (pm10Vals rows))
        temperature := if rows.any (fun r => r.temperature.isSome)
          then some (metricSummary (tempVals rows)) else none
        humidity := if rows.any (fun r => r.humidity.isSome)
          then some (metricSummary (humVals rows)) else none
        pm25_air := some (getAirQualityLevel (some (meanQ (pm25Vals rows))) "pm25")
        pm10_air := some (getAirQualityLevel (some (meanQ (pm10Vals rows))) "pm10")
        error := none }

/-! ## `analyze_data` (`python/analyze.py`, lines 527-586) -/

structure ADResult where
  success : Bool
  statistics : Option Stats
  error : Option String

/-- Function `analyze_data`: load, bail out with a structured error when no data
is available, else statistics plus a visualization.  The chart renderer
is an external collaborator modelled as succeeding, so `success` is true
on the non-error path. -/
noncomputable def analyzeData (file : Option RawTable) (startDate endDate : Option ℤ) : ADResult :=
  match loadData file startDate endDate with
  | none => ⟨false, none, some "No data available for analysis"⟩
  | some rows =>
    if rows.length = 0 then ⟨false, none, some "No data available for analysis"⟩
    else ⟨true, some (calculateStatistics (some rows)), none⟩

/-! ## `analyze_air_quality_data` (`python/analysis.py`, lines 14-205) -/

/-- The result dict initialised at the top of `analyze_air_quality_data`;
`warnings` collects the warning messages the script prints.  Error
messages keep the literal text of the source, with f-string interpolation
(file path, exception text) elided. -/
structure AResult where
  average_pm25 : ℚ := 0
  average_pm10 : ℚ := 0
  average_temperature : ℚ := 0
  average_humidity : ℚ := 0
  max_pm25 : ℚ := 0
  max_pm10 : ℚ := 0
  min_pm25 : ℚ := 0
  min_pm10 : ℚ := 0
  record_count : ℕ := 0
  date_range : Option (ℤ × ℤ) := none
  error : Option String := none
  warnings : List String := []
deriving DecidableEq, Repr

/-- Filter `df[df['created_at'] >= start]`: a NaT timestamp compares false and
the row is dropped; with no bound the frame is untouched. -/
def filterStartA (rows : List RawRow) (startDate : Option ℤ) : List RawRow :=
  match startDate with
  | some s => rows.filter (fun r =>
      match r.created_at with
      | some ts => decide (s ≤ ts)
      | none => false)
  | none => rows

def filterEndA (rows : List RawRow) (endDate : Option ℤ) : List RawRow :=
  match endDate with
  | some e => rows.filter (fun r =>
      match r.created_at with
      | some ts => decide (ts ≤ e)
      | none => false)
  | none => rows

/-- The two successive date filters of lines 65-73. -/
def dateFilteredRows (rows : List RawRow) (startDate endDate : Option ℤ) : List RawRow :=
  filterEndA (filterStartA rows startDate) endDate

/-- The non-missing values of a (resolved) column: `df[col].dropna()`. -/
def validColumn (rows : List RawRow) (col : Option String) : List ℚ :=
  match col with
  | some c => (rows.map (fun r => lookupField r.fields c)).filterMap id
  | none => []

/-- The statistics block of `analyze_air_quality_data` (lines 116-158 of
`python/analysis.py`).  The Python code mutates the `result` dict field by
field in sequence; every field is assigned at most once, so the dict is
assembled here field-wise.  A metric whose column resolved but has no
valid values keeps its 0 placeholder and contributes a printed warning.
`record_count` is set (line 154) before the date range is formatted
(line 157); when every remaining timestamp is NaT,
`df['created_at'].min()` is NaT, `NaT.strftime` raises, and the top-level
`except` reports the exception on the result dict that already holds the
statistics and the record count. -/
def statsBlock (rows2 : List RawRow)
    (pm25_col pm10_col temp_col humidity_col : Option String) : AResult :=
  let valid25 := validColumn rows2 pm25_col
  let valid10 := validColumn rows2 pm10_col
  let validT := validColumn rows2 temp_col
  let validH := validColumn rows2 humidity_col
  let allTs := rows2.filterMap (fun r => r.created_at)
  { average_pm25 := if valid25.length > 0 then meanQ valid25 else 0
    max_pm25 := if valid25.length > 0 then listMax valid25 else 0
    min_pm25 := if valid25.length > 0 then listMin valid25 else 0
    average_pm10 := if valid10.length > 0 then meanQ valid10 else 0
    max_pm10 := if valid10.length > 0 then listMax valid10 else 0
    min_pm10 := if valid10.length > 0 then listMin valid10 else 0
    average_temperature := if validT.length > 0 then meanQ validT else 0
    average_humidity := if validH.length > 0 then meanQ validH else 0
    record_count := rows2.length
    date_range := match allTs with
      | [] => none
      | ts :: tss => some (tss.foldl min ts, tss.foldl max ts)
    error := match allTs with
      | [] => some "Error analyzing data"
      | _ :: _ => none
    warnings :=
      (if pm25_col.isSome && valid25.length = 0 then ["No valid PM2.5 values found"] else [])
      ++ (if pm10_col.isSome && valid10.length = 0 then ["No valid PM10 values found"] else [])
      ++ (if temp_col.isSome && validT.length = 0 then ["No valid temperature values found"] else [])
      ++ (if humidity_col.isSome && validH.length = 0 then ["No valid humidity values found"] else []) }

/-- Function `analyze_air_quality_data` (basic analysis): file check, empty check,
date filtering, column resolution, then the statistics block. -/
def analyzeAirQualityData (file : Option RawTable) (startDate endDate : Option ℤ) : AResult :=
  match file with
  | none => { error := some "File not found" }
  | some t =>
    if t.rows.length = 0 then { error := some "No data found in CSV file" }
    else
      let rows2 := dateFilteredRows t.rows startDate endDate
      if rows2.length = 0 then { error := some "No data found for the specified date range" }
      else
        let pm25_col := resolveAnalysis t.cols "pm25" "field3"
        let pm10_col := resolveAnalysis t.cols "pm10" "field4"
        let temp_col := resolveAnalysis t.cols "temperature" "field2"
        let humidity_col := resolveAnalysis t.cols "humidity" "field1"
        if pm25_col.isNone || pm10_col.isNone then
          { error := some "Could not find PM2.5 or PM10 columns in the data" }
        else
          statsBlock rows2 pm25_col pm10_col temp_col humidity_col

/-! ## `assess_data_quality` (`python/analysis.py`, lines 253-280) -/

structure DataQuality where
  completeness_pm25 : ℚ
  completeness_pm10 : ℚ
  completeness_temperature : ℚ
  completeness_humidity : ℚ
  outliers_pm25 : ℚ
  outliers_pm10 : ℚ
  record_count : ℕ
deriving DecidableEq, Repr

/-- The cells of one named column, in row order (`df[col]`). -/
def colCells (rows : List RawRow) (c : String) : List (Option ℚ) :=
  rows.map (fun r => lookupField r.fields c)

/-- Test `abs(value - mean) > 3 * std`, stated on squares to stay in ℚ
(equivalent since both sides are nonnegative); a NaN std — fewer than two
valid values — makes the comparison false, as in pandas. -/
def isOutlier (v m : ℚ) (var? : Option ℚ) : Bool :=
  match var? with
  | some s2 => decide ((v - m) ^ 2 > 9 * s2)
  | none => false

/-- The outlier row count for one column: NaN cells compare false and are
never counted, while `total_records` in the denominator counts all rows. -/
def outlierCount (rows : List RawRow) (c : String) : ℕ :=
  let valid := (colCells rows c).filterMap id
  (valid.filter (fun v => isOutlier v (meanQ valid) (sampleVar? valid))).length

/-- Function `assess_data_quality`: per-metric completeness
`(notna count / total) * 100` and the outlier share
`(count of |v - mean| > 3·std) / total * 100`, both rounded to 2 decimal
places.  Note both quantities are percentages. -/
def assessDataQuality (rows : List RawRow) (pm25Col pm10Col tempCol humCol : String) : DataQuality :=
  let total : ℚ := rows.length
  let comp := fun c => roundQ2 ((((colCells rows c).filterMap id).length / total) * 100)
  let outl := fun c => roundQ2 ((outlierCount rows c / total) * 100)
  ⟨comp pm25Col, comp pm10Col, comp tempCol, comp humCol,
   outl pm25Col, outl pm10Col, rows.length⟩

/-! ## Helper lemmas -/

theorem aqiTable_pm25 : aqiTable "pm25" = aqiPm25 := rfl

theorem findLevel_first (v : ℚ) (pre : List AqiEntry) (e : AqiEntry) (post : List AqiEntry)
    (hpre : ∀ e2 ∈ pre, e2.maxVal < v) (he : v ≤ e.maxVal) :
    findLevel (pre ++ e :: post) v = ⟨e.level, e.color⟩ := by
  induction pre with
  | nil => simp [findLevel, he]
  | cons a rest ih =>
    have ha : a.maxVal < v := hpre a (by simp)
    have : ¬ v ≤ a.maxVal := not_le.mpr ha
    simp only [List.cons_append, findLevel, this, if_false]
    exact ih (fun e2 h2 => hpre e2 (by simp [h2]))

theorem findLevel_past_top (v : ℚ) (l : List AqiEntry)
    (h : ∀ e ∈ l, e.maxVal < v) :
    findLevel l v = ⟨"Extremely Hazardous", "black"⟩ := by
  induction l with
  | nil => rfl
  | cons a rest ih =>
    have ha : ¬ v ≤ a.maxVal := not_le.mpr (h a (by simp))
    simp only [findLevel, ha, if_false]
    exact ih (fun e h2 => h e (by simp [h2]))

/-! ## Claim theorems -/

def scenarioTable : RawTable :=
  ⟨["created_at", "pm25", "pm10"],
   [⟨some 0, [("pm25", some 10), ("pm10", some 20)]⟩,
    ⟨some 60, [("pm25", some 30), ("pm10", some 40)]⟩]⟩

/-- C10: in `create_correlation_large`, the date filter fires only when
both a start and an end bound are supplied; with exactly one bound the
chunk passes through the date stage untouched, so a chunk contributes to
the accumulators exactly as if no bounds were given. -/
theorem dateFilter_needs_both_bounds (s e : ℤ) (chunk : List SRow)
    (acc : StreamAcc) (chunks : List (List SRow)) :
    dateFilter (some s) none chunk = chunk ∧
    dateFilter none (some e) chunk = chunk ∧
    processChunk (some s) none acc chunk = processChunk none none acc chunk ∧
    processChunk none (some e) acc chunk = processChunk none none acc chunk ∧
    runStream (some s) none chunks = runStream none none chunks ∧
    runStream none (some e) chunks = runStream none none chunks :=
  ⟨rfl, rfl, rfl, rfl, rfl, rfl⟩

/-- C2 (amended): the two resolvers disagree on priority.  The resolver
of `analysis.py` prefers the semantic name and falls back to the legacy
code; the `FIELD_MAPPING` resolver of `analyze.py`'s `load_data` lists the
legacy code first and therefore prefers it over the semantic name.  Both
mark the field unavailable (`none`) when neither name is present. -/
theorem resolver_priority (m : Metric) (cols : List String) :
    (semName m ∈ cols →
      resolveAnalysis cols (semName m) (legName m) = some (semName m)) ∧
    (semName m ∉ cols → legName m ∈ cols →
      resolveAnalysis cols (semName m) (legName m) = some (legName m)) ∧
    (semName m ∉ cols → legName m ∉ cols →
      resolveAnalysis cols (semName m) (legName m) = none) ∧
    (legName m ∈ cols → resolveLoad m cols = some (legName m)) ∧
    (legName m ∉ cols → semName m ∈ cols → resolveLoad m cols = some (semName m)) ∧
    (legName m ∉ cols → semName m ∉ cols → resolveLoad m cols = none) := by
  have hmap : fieldMapping m = [legName m, semName m] := by cases m <;> rfl
  refine ⟨?_, ?_, ?_, ?_, ?_, ?_⟩
  · intro hs
    simp [resolveAnalysis, hs]
  · intro hs hl
    simp [resolveAnalysis, hs, hl]
  · intro hs hl
    simp [resolveAnalysis, hs, hl]
  · intro hl
    simp [resolveLoad, hmap, List.find?, hl]
  · intro hl hs
    simp [resolveLoad, hmap, List.find?, hl, hs]
  · intro hl hs
    simp [resolveLoad, hmap, List.find?, hl, hs]

/-- C2 witness: with only the semantic name present `analysis.py`
resolves to it, and with only the legacy code present `load_data`
resolves to that. -/
theorem resolver_priority_witness :
    ("pm25" ∈ ["pm25"] ∧
      resolveAnalysis ["pm25"] "pm25" "field3" = some "pm25") ∧
    ("field3" ∈ ["field3"] ∧ resolveLoad .pm25 ["field3"] = some "field3") :=
  ⟨⟨by decide, (resolver_priority .pm25 ["pm25"]).1 (by decide)⟩,
   ⟨by decide, (resolver_priority .pm25 ["field3"]).2.2.2.1 (by decide)⟩⟩

/-- C2 counterexample: when both `pm25` and `field3` are present,
`load_data`'s resolver picks the legacy column `field3`, not the semantic
column, refuting the claim that the semantic name is preferred whenever
present. -/
theorem resolver_priority_counterexample :
    "pm25" ∈ ["pm25", "field3"] ∧
    resolveLoad .pm25 ["pm25", "field3"] = some "field3" ∧
    resolveLoad .pm25 ["pm25", "field3"] ≠ some "pm25" := by
  refine ⟨by decide, by decide, by decide⟩

/-- C5: `get_air_quality_level` returns the first entry of the
pollutant's ascending threshold table whose `max` is at least the value
(a value equal to a boundary falls in the lower bucket, since the
comparison is `value <= max`); a value above every bucket is classified
Extremely Hazardous; and `calculate_statistics` derives the bucket from
the metric's mean. -/
theorem air_quality_bucketing :
    (∀ (v : ℚ) (p : String) (pre : List AqiEntry) (e : AqiEntry) (post : List AqiEntry),
      aqiTable p = pre ++ e :: post → (∀ e2 ∈ pre, e2.maxVal < v) → v ≤ e.maxVal →
      getAirQualityLevel (some v) p = ⟨e.level, e.color⟩) ∧
    (∀ (v : ℚ) (p : String), (∀ e ∈ aqiTable p, e.maxVal < v) →
      getAirQualityLevel (some v) p = ⟨"Extremely Hazardous", "black"⟩) ∧
    (∀ rows : List SRow, rows.length ≠ 0 →
      (calculateStatistics (some rows)).pm25_air =
        some (getAirQualityLevel (some (meanQ (pm25Vals rows))) "pm25") ∧
      (calculateStatistics (some rows)).pm10_air =
        some (getAirQualityLevel (some (meanQ (pm10Vals rows))) "pm10")) := by
  refine ⟨?_, ?_, ?_⟩
  · intro v p pre e post htab hpre he
    simp only [getAirQualityLevel, htab]
    exact findLevel_first v pre e post hpre he
  · intro v p h
    simp only [getAirQualityLevel]
    exact findLevel_past_top v _ h
  · intro rows hlen
    simp [calculateStatistics, hlen]

/-- C5 witness: a pm25 mean of exactly 12 lands in the lower bucket
(Good), a mean of 1000 is past the top bucket, and on a concrete one-row
frame the bucket is derived from the mean. -/
theorem air_quality_bucketing_witness :
    getAirQualityLevel (some 12) "pm25" = ⟨"Good", "green"⟩ ∧
    getAirQualityLevel (some 1000) "pm25" = ⟨"Extremely Hazardous", "black"⟩ ∧
    (calculateStatistics (some [⟨0, some 30, some 40, none, none⟩])).pm25_air =
      some (getAirQualityLevel (some (meanQ (pm25Vals [⟨0, some 30, some 40, none, none⟩]))) "pm25") :=
  ⟨air_quality_bucketing.1 12 "pm25" []
      ⟨12, "Good", "green"⟩
      [⟨35.4, "Moderate", "yellow"⟩,
       ⟨55.4, "Unhealthy for Sensitive Groups", "orange"⟩,
       ⟨150.4, "Unhealthy", "red"⟩,
       ⟨250.4, "Very Unhealthy", "purple"⟩,
       ⟨500, "Hazardous", "maroon"⟩]
      (by rw [aqiTable_pm25]; rfl) (by simp) (by norm_num),
   air_quality_bucketing.2.1 1000 "pm25"
     (by rw [aqiTable_pm25]; simp only [aqiPm25]; intro e he; fin_cases he <;> norm_num),
   (air_quality_bucketing.2.2 [⟨0, some 30, some 40, none, none⟩] (by simp)).1⟩

def pm10MissingTable : RawTable :=
  ⟨["created_at", "pm25"], [⟨some 0, [("pm25", some 5)]⟩]⟩

def noPollutantTable : RawTable :=
  ⟨["created_at", "temperature"], [⟨some 0, [("temperature", some 21)]⟩]⟩

/-- C3 (amended): `analyze_air_quality_data` raises the missing-columns
error exactly when pm25 or pm10 is unavailable — i.e. when EITHER
pollutant field resolves to no column (`if not pm25_col or not
pm10_col`), not only when both do; absence of temperature or humidity
columns alone is never fatal, in `analysis.py` (no error once both
pollutant columns resolve and some timestamp parses) as in `analyze.py`'s
`calculate_statistics` (the temperature block is simply omitted). -/
theorem missing_columns_error (t : RawTable) (s e : Option ℤ)
    (h1 : ¬ t.rows.length = 0)
    (h2 : ¬ (dateFilteredRows t.rows s e).length = 0) :
    ((analyzeAirQualityData (some t) s e).error
        = some "Could not find PM2.5 or PM10 columns in the data"
      ↔ (resolveAnalysis t.cols "pm25" "field3" = none ∨
          resolveAnalysis t.cols "pm10" "field4" = none)) ∧
    (resolveAnalysis t.cols "pm25" "field3" ≠ none →
      resolveAnalysis t.cols "pm10" "field4" ≠ none →
      ¬ (dateFilteredRows t.rows s e).filterMap (fun r => r.created_at) = [] →
      (analyzeAirQualityData (some t) s e).error = none) ∧
    (∀ rows : List SRow, ¬ rows.length = 0 →
      (calculateStatistics (some rows)).error = none ∧
      ((∀ r ∈ rows, r.temperature = none) →
        (calculateStatistics (some rows)).temperature = none)) := by
  refine ⟨?_, ?_, ?_⟩
  · simp only [analyzeAirQualityData, if_neg h1, if_neg h2]
    by_cases hc : (resolveAnalysis t.cols "pm25" "field3" = none ∨
        resolveAnalysis t.cols "pm10" "field4" = none)
    · have hcond : ((resolveAnalysis t.cols "pm25" "field3").isNone
          || (resolveAnalysis t.cols "pm10" "field4").isNone) = true := by
        rcases hc with h | h <;> simp [h]
      rw [if_pos hcond]
      simpa using hc
    · push_neg at hc
      have hcond : ((resolveAnalysis t.cols "pm25" "field3").isNone
          || (resolveAnalysis t.cols "pm10" "field4").isNone) = false := by
        simp [Option.isNone_iff_eq_none, Option.isSome_iff_ne_none, hc.1, hc.2]
      rw [hcond]
      simp only [Bool.false_eq_true, if_false]
      constructor
      · intro herr
        exfalso
        rcases h3 : (dateFilteredRows t.rows s e).filterMap (fun r => r.created_at) with _ | ⟨ts, tss⟩ <;>
          simp only [statsBlock, h3] at herr <;> simp at herr
      · intro h
        exact absurd h (by simpa using hc)
  · intro hpm25 hpm10 hts
    simp only [analyzeAirQualityData, if_neg h1, if_neg h2]
    have hcond : ((resolveAnalysis t.cols "pm25" "field3").isNone
        || (resolveAnalysis t.cols "pm10" "field4").isNone) = false := by
      simp [Option.isNone_iff_eq_none, Option.isSome_iff_ne_none, hpm25, hpm10]
    rw [hcond]
    simp only [Bool.false_eq_true, if_false]
    rcases h3 : (dateFilteredRows t.rows s e).filterMap (fun r => r.created_at) with _ | ⟨ts, tss⟩
    · exact absurd h3 hts
    · simp only [statsBlock, h3]
  · intro rows hlen
    refine ⟨by simp [calculateStatistics, hlen], ?_⟩
    intro hall
    have hany : rows.any (fun r => r.temperature.isSome) = false := by
      simp only [List.any_eq_false]
      intro r hr
      simp [hall r hr]
    simp [calculateStatistics, hlen, hany]

/-- C3 witness: a frame with temperature data but neither pollutant
column fails with the missing-columns error. -/
theorem missing_columns_error_witness :
    (¬ noPollutantTable.rows.length = 0) ∧
    (¬ (dateFilteredRows noPollutantTable.rows none none).length = 0) ∧
    (analyzeAirQualityData (some noPollutantTable) none none).error
      = some "Could not find PM2.5 or PM10 columns in the data" :=
  ⟨by decide, by decide,
   (missing_columns_error noPollutantTable none none (by decide) (by decide)).1.mpr
     (Or.inl (by decide))⟩

/-- C3 counterexample: a frame where pm25 resolves but pm10 does not
still fails with the missing-columns error, refuting "exactly when both
the pm25 field and the pm10 field are unavailable". -/
theorem missing_columns_error_counterexample :
    resolveAnalysis pm10MissingTable.cols "pm25" "field3" = some "pm25" ∧
    resolveAnalysis pm10MissingTable.cols "pm10" "field4" = none ∧
    (analyzeAirQualityData (some pm10MissingTable) none none).error
      = some "Could not find PM2.5 or PM10 columns in the data" := by
  refine ⟨by decide, by decide, by decide⟩

def natTable : RawTable :=
  ⟨["created_at", "pm25", "pm10"], [⟨none, [("pm25", some 5), ("pm10", some 7)]⟩]⟩

def lateStartTable : RawTable := ⟨["created_at"], [⟨some 10, []⟩]⟩

/-- C7 (amended): for the enumerated fatal inputs — missing file, empty
file, and a date range matching zero rows — both entry points return a
structured result with an error field and their zeroed defaults
(`record_count = 0` in `analysis.py`; `success = false` with null
statistics in `analyze.py`) instead of raising. -/
theorem structured_error_results (s e : Option ℤ) :
    ((analyzeAirQualityData none s e).error = some "File not found" ∧
      (analyzeAirQualityData none s e).record_count = 0) ∧
    (∀ cols : List String,
      (analyzeAirQualityData (some ⟨cols, []⟩) s e).error = some "No data found in CSV file" ∧
      (analyzeAirQualityData (some ⟨cols, []⟩) s e).record_count = 0) ∧
    (∀ t : RawTable, ¬ t.rows.length = 0 → dateFilteredRows t.rows s e = [] →
      (analyzeAirQualityData (some t) s e).error
          = some "No data found for the specified date range" ∧
      (analyzeAirQualityData (some t) s e).record_count = 0) ∧
    ((analyzeData none s e).success = false ∧
      (analyzeData none s e).statistics = none ∧
      (analyzeData none s e).error = some "No data available for analysis") ∧
    (∀ cols : List String,
      (analyzeData (some ⟨cols, []⟩) s e).success = false ∧
      (analyzeData (some ⟨cols, []⟩) s e).statistics = none ∧
      (analyzeData (some ⟨cols, []⟩) s e).error = some "No data available for analysis") ∧
    (∀ t : RawTable, ¬ t.rows.length = 0 → loadData (some t) s e = some [] →
      (analyzeData (some t) s e).success = false ∧
      (analyzeData (some t) s e).statistics = none ∧
      (analyzeData (some t) s e).error = some "No data available for analysis") := by
  refine ⟨⟨rfl, rfl⟩, ?_, ?_, ?_, ?_, ?_⟩
  · intro cols
    constructor <;> rfl
  · intro t h1 hempty
    simp only [analyzeAirQualityData, if_neg h1]
    rw [hempty]
    simp
  · simp [analyzeData, loadData]
  · intro cols
    have hload : loadData (some ⟨cols, []⟩) s e = some [] := by
      cases s <;> cases e <;> simp [loadData]
    refine ⟨?_, ?_, ?_⟩ <;> simp [analyzeData, hload]
  · intro t h1 hload
    refine ⟨?_, ?_, ?_⟩ <;> simp [analyzeData, hload]

def lateStartPollutantTable : RawTable :=
  ⟨["created_at", "pm25", "pm10"], [⟨some 10, [("pm25", some 5), ("pm10", some 7)]⟩]⟩

/-- C7 witness: a one-row file whose timestamp is before the start bound
filters down to zero rows in both entry points — `analysis.py` returns
the structured date-range error with a zero record count, and
`analyze.py`'s `analyze_data`, whose `load_data` keeps the pollutant row
but date-filters it away, returns the structured no-data result with
`success = false` and null statistics. -/
theorem structured_error_results_witness :
    ((¬ lateStartTable.rows.length = 0) ∧
      dateFilteredRows lateStartTable.rows (some 100) none = [] ∧
      (analyzeAirQualityData (some lateStartTable) (some 100) none).error
          = some "No data found for the specified date range" ∧
      (analyzeAirQualityData (some lateStartTable) (some 100) none).record_count = 0) ∧
    ((¬ lateStartPollutantTable.rows.length = 0) ∧
      loadData (some lateStartPollutantTable) (some 100) none = some [] ∧
      (analyzeData (some lateStartPollutantTable) (some 100) none).success = false ∧
      (analyzeData (some lateStartPollutantTable) (some 100) none).statistics = none ∧
      (analyzeData (some lateStartPollutantTable) (some 100) none).error
          = some "No data available for analysis") :=
  ⟨⟨by decide, by decide,
    (structured_error_results (some 100) none).2.2.1 lateStartTable (by decide) (by decide)⟩,
   ⟨by decide, by decide,
    (structured_error_results (some 100) none).2.2.2.2.2 lateStartPollutantTable
      (by decide) (by decide)⟩⟩

/-- C7 counterexample: a file whose rows all carry an unparsable
`created_at` reaches the date-range formatting, where `NaT.strftime`
raises; the caught exception is reported on the result that already holds
`record_count = 1`, so an error result need not have `record_count = 0`. -/
theorem structured_error_results_counterexample :
    (analyzeAirQualityData (some natTable) none none).error = some "Error analyzing data" ∧
    ¬ (analyzeAirQualityData (some natTable) none none).record_count = 0 := by
  refine ⟨by decide, by decide⟩

def dropNaRows : List RawRow :=
  [⟨some 0, [("pm25", some 10)]⟩, ⟨some 1, [("pm25", none)]⟩, ⟨some 2, [("pm25", some 30)]⟩]

/-- C8: statistics use drop-NA semantics — the mean is the sum of the
non-missing values over their own count (missing values leave both the
numerator and the denominator), min/max likewise range over the
non-missing values, a metric with zero valid values keeps the 0
placeholder and emits a warning, `calculate_statistics` builds each
StatSummary from the column's non-missing values, and the two-row
scenario from the spec produces mean pm25 = 20, mean pm10 = 30, min/max
as given and `record_count = 2`. -/
theorem drop_na_statistics :
    (∀ (rows2 : List RawRow) (c1 c2 c3 c4 : Option String),
      (validColumn rows2 c1 ≠ [] →
        (statsBlock rows2 c1 c2 c3 c4).average_pm25
            = (validColumn rows2 c1).sum / (validColumn rows2 c1).length ∧
        (statsBlock rows2 c1 c2 c3 c4).min_pm25 = listMin (validColumn rows2 c1) ∧
        (statsBlock rows2 c1 c2 c3 c4).max_pm25 = listMax (validColumn rows2 c1)) ∧
      (validColumn rows2 c1 = [] → c1.isSome = true →
        (statsBlock rows2 c1 c2 c3 c4).average_pm25 = 0 ∧
        "No valid PM2.5 values found" ∈ (statsBlock rows2 c1 c2 c3 c4).warnings)) ∧
    (∀ rows : List SRow, ¬ rows.length = 0 →
      (calculateStatistics (some rows)).pm25
          = some (metricSummary (rows.filterMap (fun r => r.pm25))) ∧
      (calculateStatistics (some rows)).count = rows.length) ∧
    ((analyzeAirQualityData (some scenarioTable) none none).average_pm25 = 20 ∧
      (analyzeAirQualityData (some scenarioTable) none none).average_pm10 = 30 ∧
      (analyzeAirQualityData (some scenarioTable) none none).min_pm25 = 10 ∧
      (analyzeAirQualityData (some scenarioTable) none none).max_pm25 = 30 ∧
      (analyzeAirQualityData (some scenarioTable) none none).min_pm10 = 20 ∧
      (analyzeAirQualityData (some scenarioTable) none none).max_pm10 = 40 ∧
      (analyzeAirQualityData (some scenarioTable) none none).record_count = 2) := by
  refine ⟨?_, ?_, ?_⟩
  · intro rows2 c1 c2 c3 c4
    constructor
    · intro hne
      have hpos : (validColumn rows2 c1).length > 0 := List.length_pos.mpr hne
      refine ⟨?_, ?_, ?_⟩ <;> simp [statsBlock, hpos, meanQ]
    · intro hnil hsome
      refine ⟨?_, ?_⟩ <;> simp [statsBlock, hnil, hsome]
  · intro rows hlen
    exact ⟨by simp [calculateStatistics, hlen, pm25Vals], by simp [calculateStatistics, hlen]⟩
  · have hres : analyzeAirQualityData (some scenarioTable) none none
        = statsBlock scenarioTable.rows (some "pm25") (some "pm10") none none := rfl
    have h25 : validColumn scenarioTable.rows (some "pm25") = [10, 30] := rfl
    have h10 : validColumn scenarioTable.rows (some "pm10") = [20, 40] := rfl
    refine ⟨?_, ?_, ?_, ?_, ?_, ?_, ?_⟩ <;>
      rw [hres] <;>
      simp [statsBlock, h25, h10, meanQ, listMin, listMax, min_def, max_def] <;>
      norm_num [scenarioTable]

/-- C8 witness: on a three-row column `[10, NaN, 30]` the mean is
20 = (10 + 30)/2 — the missing value is excluded from numerator and
denominator alike — and on a one-row frame the count is 1. -/
theorem drop_na_statistics_witness :
    (validColumn dropNaRows (some "pm25") ≠ [] ∧
      (statsBlock dropNaRows (some "pm25") none none none).average_pm25
        = (validColumn dropNaRows (some "pm25")).sum / (validColumn dropNaRows (some "pm25")).length) ∧
    (¬ ([⟨0, some 1, some 2, none, none⟩] : List SRow).length = 0 ∧
      (calculateStatistics (some [⟨0, some 1, some 2, none, none⟩])).count = 1) :=
  ⟨⟨by decide,
    ((drop_na_statistics.1 dropNaRows (some "pm25") none none none).1 (by decide)).1⟩,
   ⟨by decide,
    (drop_na_statistics.2.1 [⟨0, some 1, some 2, none, none⟩] (by decide)).2⟩⟩

def outlierTable : List RawRow :=
  List.replicate 11 ⟨some 0, [("pm25", some 0), ("pm10", some 0)]⟩
    ++ [⟨some 0, [("pm25", some 1), ("pm10", some 0)]⟩]

/-- C9 (amended): per metric, `assess_data_quality` reports completeness
`(non-missing count / total count) × 100` and an outlier measure equal to
the PERCENTAGE `(outlier count / total count) × 100` — i.e. the outlier
fraction multiplied by 100, like completeness — both rounded to 2 decimal
places; and the outlier test `|value - mean| > 3·std`, stated on squares
in the embedding, agrees with the absolute-value form. -/
theorem data_quality_metrics (rows : List RawRow) (p1 p2 p3 p4 : String)
    (_h : ¬ rows.length = 0) :
    ((assessDataQuality rows p1 p2 p3 p4).completeness_pm25
        = roundQ2 ((((colCells rows p1).filterMap id).length : ℚ) / rows.length * 100)) ∧
    ((assessDataQuality rows p1 p2 p3 p4).completeness_pm10
        = roundQ2 ((((colCells rows p2).filterMap id).length : ℚ) / rows.length * 100)) ∧
    ((assessDataQuality rows p1 p2 p3 p4).completeness_temperature
        = roundQ2 ((((colCells rows p3).filterMap id).length : ℚ) / rows.length * 100)) ∧
    ((assessDataQuality rows p1 p2 p3 p4).completeness_humidity
        = roundQ2 ((((colCells rows p4).filterMap id).length : ℚ) / rows.length * 100)) ∧
    ((assessDataQuality rows p1 p2 p3 p4).outliers_pm25
        = roundQ2 ((outlierCount rows p1 : ℚ) / rows.length * 100)) ∧
    ((assessDataQuality rows p1 p2 p3 p4).outliers_pm10
        = roundQ2 ((outlierCount rows p2 : ℚ) / rows.length * 100)) ∧
    ((assessDataQuality rows p1 p2 p3 p4).record_count = rows.length) ∧
    (∀ v m s2 : ℚ, 0 ≤ s2 →
      (isOutlier v m (some s2) = true ↔
        3 * Real.sqrt (s2 : ℝ) < |(v : ℝ) - (m : ℝ)|)) := by
  refine ⟨rfl, rfl, rfl, rfl, rfl, rfl, rfl, ?_⟩
  intro v m s2 hs2
  have h9 : (0:ℝ) ≤ 9 * (s2 : ℝ) := by positivity
  have hsq : Real.sqrt (9 * (s2 : ℝ)) = 3 * Real.sqrt (s2 : ℝ) := by
    rw [show (9 : ℝ) * (s2 : ℝ) = 3 ^ 2 * (s2 : ℝ) by norm_num,
      Real.sqrt_mul (by positivity), Real.sqrt_sq (by norm_num)]
  have habs : |(v : ℝ) - (m : ℝ)| = Real.sqrt (((v : ℝ) - (m : ℝ)) ^ 2) :=
    (Real.sqrt_sq_eq_abs _).symm
  constructor
  · intro hout
    have hq : 9 * s2 < (v - m) ^ 2 := by
      simpa [isOutlier] using hout
    have hr : 9 * (s2 : ℝ) < ((v : ℝ) - (m : ℝ)) ^ 2 := by
      have := (Rat.cast_lt (K := ℝ)).mpr hq
      push_cast at this
      linarith
    rw [habs, ← hsq]
    exact (Real.sqrt_lt_sqrt_iff h9).mpr hr
  · intro habs2
    have h1 : Real.sqrt (9 * (s2 : ℝ)) < Real.sqrt (((v : ℝ) - (m : ℝ)) ^ 2) := by
      rw [hsq, Real.sqrt_sq_eq_abs]
      exact habs2
    have hr : 9 * (s2 : ℝ) < ((v : ℝ) - (m : ℝ)) ^ 2 :=
      (Real.sqrt_lt_sqrt_iff h9).mp h1
    have hq : 9 * s2 < (v - m) ^ 2 := by
      have : ((9 * s2 : ℚ) : ℝ) < (((v - m) ^ 2 : ℚ) : ℝ) := by push_cast; linarith
      exact_mod_cast this
    simp [isOutlier, hq]

/-- C9 witness: the completeness formula evaluated through the theorem on
the 12-value column, and the outlier-test bridge at a concrete point. -/
theorem data_quality_metrics_witness :
    (¬ outlierTable.length = 0) ∧
    ((assessDataQuality outlierTable "pm25" "pm10" "temperature" "humidity").completeness_pm25
      = roundQ2 ((((colCells outlierTable "pm25").filterMap id).length : ℚ)
          / outlierTable.length * 100)) ∧
    ((0 : ℚ) ≤ 1 ∧ (isOutlier 1 0 (some 1) = true ↔ 3 * Real.sqrt ((1 : ℚ) : ℝ) < |((1 : ℚ) : ℝ) - ((0 : ℚ) : ℝ)|)) :=
  ⟨by decide,
   (data_quality_metrics outlierTable "pm25" "pm10" "temperature" "humidity" (by decide)).1,
   by decide,
   (data_quality_metrics outlierTable "pm25" "pm10" "temperature" "humidity" (by decide)).2.2.2.2.2.2.2
     1 0 1 (by norm_num)⟩

/-- C9 counterexample: on a column of eleven 0s and one 1 the source
reports `outliers = 8.33` — the percentage `(1/12)·100` rounded to 2
decimal places — whereas the fraction `1/12` rounded to 2 decimal places
is `0.08`; the reported measure is not the fraction. -/
theorem data_quality_metrics_counterexample :
    (assessDataQuality outlierTable "pm25" "pm10" "temperature" "humidity").outliers_pm25
        = 833 / 100 ∧
    roundQ2 ((outlierCount outlierTable "pm25" : ℚ) / outlierTable.length) = 8 / 100 ∧
    (833 : ℚ) / 100 ≠ 8 / 100 := by
  refine ⟨?_, ?_, by norm_num⟩
  · norm_num [assessDataQuality, outlierTable, outlierCount, colCells, lookupField, List.find?,
      isOutlier, meanQ, sampleVar?, roundQ2, List.replicate, round_eq,
      List.filterMap_cons, List.filterMap_nil, List.filter_cons, List.filter_nil]
  · norm_num [outlierTable, outlierCount, colCells, lookupField, List.find?,
      isOutlier, meanQ, sampleVar?, roundQ2, List.replicate, round_eq,
      List.filterMap_cons, List.filterMap_nil, List.filter_cons, List.filter_nil]

/-! ## Algebraic identities between the running-sum and centered forms -/

theorem sum_mul_sub (p : List (ℚ × ℚ)) (a b : ℚ) :
    (p.map (fun q => (q.1 - a) * (q.2 - b))).sum
      = sxyF p - a * syF p - b * sxF p + p.length * a * b := by
  induction p with
  | nil => simp [sxyF, sxF, syF]
  | cons q rest ih =>
    simp only [List.map_cons, List.sum_cons, ih, sxyF, sxF, syF, List.length_cons]
    push_cast
    ring

theorem scovC_eq (p : List (ℚ × ℚ)) (hn : p.length ≠ 0) :
    (p.length : ℚ) * scovC p = p.length * sxyF p - sxF p * syF p := by
  have hq : ((p.length : ℚ)) ≠ 0 := Nat.cast_ne_zero.mpr hn
  rw [scovC, sum_mul_sub]
  field_simp
  ring

theorem sum_sq_fst_sub (p : List (ℚ × ℚ)) (a : ℚ) :
    (p.map (fun q => (q.1 - a) ^ 2)).sum
      = sqxF p - 2 * a * sxF p + p.length * a ^ 2 := by
  induction p with
  | nil => simp [sqxF, sxF]
  | cons q rest ih =>
    simp only [List.map_cons, List.sum_cons, ih, sqxF, sxF, List.length_cons]
    push_cast
    ring

theorem sum_sq_snd_sub (p : List (ℚ × ℚ)) (a : ℚ) :
    (p.map (fun q => (q.2 - a) ^ 2)).sum
      = sqyF p - 2 * a * syF p + p.length * a ^ 2 := by
  induction p with
  | nil => simp [sqyF, syF]
  | cons q rest ih =>
    simp only [List.map_cons, List.sum_cons, ih, sqyF, syF, List.length_cons]
    push_cast
    ring

theorem sxxC_eq (p : List (ℚ × ℚ)) (hn : p.length ≠ 0) :
    (p.length : ℚ) * sxxC p = p.length * sqxF p - sxF p ^ 2 := by
  have hq : ((p.length : ℚ)) ≠ 0 := Nat.cast_ne_zero.mpr hn
  rw [sxxC, sum_sq_fst_sub]
  field_simp
  ring

theorem syyC_eq (p : List (ℚ × ℚ)) (hn : p.length ≠ 0) :
    (p.length : ℚ) * syyC p = p.length * sqyF p - syF p ^ 2 := by
  have hq : ((p.length : ℚ)) ≠ 0 := Nat.cast_ne_zero.mpr hn
  rw [syyC, sum_sq_snd_sub]
  field_simp
  ring

theorem sxxC_nonneg (p : List (ℚ × ℚ)) : 0 ≤ sxxC p := by
  apply List.sum_nonneg
  intro x hx
  obtain ⟨q, _, rfl⟩ := List.mem_map.mp hx
  positivity

theorem syyC_nonneg (p : List (ℚ × ℚ)) : 0 ≤ syyC p := by
  apply List.sum_nonneg
  intro x hx
  obtain ⟨q, _, rfl⟩ := List.mem_map.mp hx
  positivity

theorem length_ne_zero_of_sxxC_ne (p : List (ℚ × ℚ)) (h : sxxC p ≠ 0) : p.length ≠ 0 := by
  intro hlen
  apply h
  rw [List.length_eq_zero] at hlen
  subst hlen
  rfl

/-- C4 (amended): with a zero-variance series, the streaming closed-form
correlation of `correlation_large.py` returns `0` (its denominator is
zero), while the pandas correlation used by `analysis.py` is NaN
(modelled `none`), not `0`. -/
theorem zero_variance_correlation (p : List (ℚ × ℚ))
    (h : sxxC p = 0 ∨ syyC p = 0) :
    calculateCorrelation (sxyF p) (sxF p) (syF p) (sqxF p) (sqyF p) p.length = 0 ∧
    pearsonCorr p = none := by
  refine ⟨?_, by simp [pearsonCorr, h]⟩
  by_cases hn : p.length = 0
  · rw [List.length_eq_zero] at hn
    subst hn
    simp [calculateCorrelation, sxyF, sxF, syF, sqxF, sqyF]
  · have hzero : ((p.length : ℚ) * sqxF p - sxF p ^ 2) * ((p.length : ℚ) * sqyF p - syF p ^ 2) = 0 := by
      rcases h with h | h
      · rw [← sxxC_eq p hn, h, mul_zero, zero_mul]
      · rw [← syyC_eq p hn, h, mul_zero, mul_zero]
    simp only [calculateCorrelation]
    rw [hzero]
    simp

/-- C4 witness: the constant series `x = [1, 1]` has zero variance; the
streaming formula yields `0` and the pandas correlation yields NaN. -/
theorem zero_variance_correlation_witness :
    (sxxC [((1 : ℚ), 2), (1, 3)] = 0 ∨ syyC [((1 : ℚ), 2), (1, 3)] = 0) ∧
    calculateCorrelation (sxyF [((1 : ℚ), 2), (1, 3)]) (sxF [((1 : ℚ), 2), (1, 3)])
        (syF [((1 : ℚ), 2), (1, 3)]) (sqxF [((1 : ℚ), 2), (1, 3)])
        (sqyF [((1 : ℚ), 2), (1, 3)]) ([((1 : ℚ), 2), (1, 3)] : List (ℚ × ℚ)).length = 0 ∧
    pearsonCorr [((1 : ℚ), 2), (1, 3)] = none := by
  have h : sxxC [((1 : ℚ), 2), (1, 3)] = 0 := by
    norm_num [sxxC, sxF]
  have := zero_variance_correlation [((1 : ℚ), 2), (1, 3)] (Or.inl h)
  exact ⟨Or.inl h, this.1, this.2⟩

/-- C4 counterexample: for the zero-variance pair series
`[(1, 2), (1, 3)]` the Statistics Engine's pandas correlation is NaN
(`none`), not the value `0` the claim demands. -/
theorem zero_variance_correlation_counterexample :
    pearsonCorr [((1 : ℚ), 2), (1, 3)] = none ∧
    pearsonCorr [((1 : ℚ), 2), (1, 3)] ≠ some 0 := by
  have h : sxxC [((1 : ℚ), 2), (1, 3)] = 0 := by
    norm_num [sxxC, sxF]
  constructor
  · simp [pearsonCorr, h]
  · simp [pearsonCorr, h]

/-! ## Streaming accumulation and chunk independence -/

theorem StreamAcc.addZero (a : StreamAcc) : a.add StreamAcc.zero = a := by
  cases a
  simp [StreamAcc.add, StreamAcc.zero]

theorem StreamAcc.zeroAdd (a : StreamAcc) : StreamAcc.zero.add a = a := by
  cases a
  simp [StreamAcc.add, StreamAcc.zero]

theorem StreamAcc.addAssoc (a b c : StreamAcc) : (a.add b).add c = a.add (b.add c) := by
  cases a
  cases b
  cases c
  simp [StreamAcc.add]
  refine ⟨?_, ?_, ?_, ?_, ?_, ?_, ?_, ?_, ?_, ?_⟩ <;> ring

theorem dateFilter_nil (s e : Option ℤ) : dateFilter s e [] = [] := by
  cases s <;> cases e <;> rfl

theorem dateFilter_append (s e : Option ℤ) (a b : List SRow) :
    dateFilter s e (a ++ b) = dateFilter s e a ++ dateFilter s e b := by
  cases s <;> cases e <;> simp [dateFilter]

theorem chunkSums_append (a b : List SRow) :
    chunkSums (a ++ b) = (chunkSums a).add (chunkSums b) := by
  simp [chunkSums, StreamAcc.add]

/-- The two `continue` guards of the chunk loop are no-ops on the sums:
one loop iteration always adds exactly the sums of the rows that survive
the date filter and the four-column `dropna`. -/
theorem processChunk_eq (s e : Option ℤ) (acc : StreamAcc) (c : List SRow) :
    processChunk s e acc c = acc.add (chunkSums ((dateFilter s e c).filter allPresent)) := by
  simp only [processChunk]
  by_cases h1 : (dateFilter s e c).length = 0
  · rw [if_pos h1]
    rw [List.length_eq_zero] at h1
    rw [h1]
    exact (StreamAcc.addZero acc).symm
  · rw [if_neg h1]
    by_cases h2 : ((dateFilter s e c).filter allPresent).length = 0
    · rw [if_pos h2]
      rw [List.length_eq_zero] at h2
      rw [h2]
      exact (StreamAcc.addZero acc).symm
    · rw [if_neg h2]

/-- The whole chunk loop computes the sums of the joined file: the
accumulated `StreamAcc` is a function of the concatenation of the chunks
only, not of how the file was cut into chunks. -/
theorem runStream_eq (s e : Option ℤ) (chunks : List (List SRow)) :
    runStream s e chunks = chunkSums ((dateFilter s e chunks.flatten).filter allPresent) := by
  have main : ∀ (cs : List (List SRow)) (acc : StreamAcc),
      cs.foldl (processChunk s e) acc
        = acc.add (chunkSums ((dateFilter s e cs.flatten).filter allPresent)) := by
    intro cs
    induction cs with
    | nil =>
      intro acc
      have hz : chunkSums ([] : List SRow) = StreamAcc.zero := rfl
      simp only [List.foldl_nil, List.flatten_nil, dateFilter_nil, List.filter_nil, hz]
      exact (StreamAcc.addZero acc).symm
    | cons c rest ih =>
      intro acc
      simp only [List.foldl_cons, List.flatten_cons]
      rw [ih (processChunk s e acc c), processChunk_eq, dateFilter_append,
        List.filter_append, chunkSums_append, StreamAcc.addAssoc]
  rw [runStream, main, StreamAcc.zeroAdd]

theorem pairsOf_all_present (fx fy : SRow → Option ℚ) (rows : List SRow)
    (hx : ∀ r ∈ rows, (fx r).isSome = true) (hy : ∀ r ∈ rows, (fy r).isSome = true) :
    pairsOf fx fy rows = rows.map (fun r => ((fx r).getD 0, (fy r).getD 0)) := by
  induction rows with
  | nil => rfl
  | cons r rest ih =>
    obtain ⟨a, ha⟩ := Option.isSome_iff_exists.mp (hx r (by simp))
    obtain ⟨b, hb⟩ := Option.isSome_iff_exists.mp (hy r (by simp))
    simp only [pairsOf, List.filterMap_cons, ha, hb, List.map_cons]
    rw [← pairsOf]
    rw [ih (fun r2 h2 => hx r2 (by simp [h2])) (fun r2 h2 => hy r2 (by simp [h2]))]
    simp [ha, hb]

theorem allPresent_fields (r : SRow) (h : allPresent r = true) :
    r.pm25.isSome = true ∧ r.pm10.isSome = true ∧
    r.temperature.isSome = true ∧ r.humidity.isSome = true := by
  simpa [allPresent, Bool.and_eq_true, and_assoc] using h

/-- On an all-present row list, the streaming sums coincide with the
pair sums of the pm25 × temperature projection. -/
theorem chunkSums_temp_pairs (rows : List SRow)
    (h : ∀ r ∈ rows, allPresent r = true) :
    sxyF (pairsOf (fun r => r.pm25) (fun r => r.temperature) rows)
        = (chunkSums rows).pm25_temp_products ∧
    sxF (pairsOf (fun r => r.pm25) (fun r => r.temperature) rows)
        = (chunkSums rows).pm25_sum ∧
    syF (pairsOf (fun r => r.pm25) (fun r => r.temperature) rows)
        = (chunkSums rows).temp_sum ∧
    sqxF (pairsOf (fun r => r.pm25) (fun r => r.temperature) rows)
        = (chunkSums rows).pm25_squared_sum ∧
    sqyF (pairsOf (fun r => r.pm25) (fun r => r.temperature) rows)
        = (chunkSums rows).temp_squared_sum ∧
    (pairsOf (fun r => r.pm25) (fun r => r.temperature) rows).length
        = (chunkSums rows).count := by
  rw [pairsOf_all_present _ _ rows (fun r hr => (allPresent_fields r (h r hr)).1)
    (fun r hr => (allPresent_fields r (h r hr)).2.2.1)]
  refine ⟨?_, ?_, ?_, ?_, ?_, ?_⟩ <;>
    simp [sxyF, sxF, syF, sqxF, sqyF, chunkSums, List.map_map, Function.comp_def]

/-- On an all-present row list, the streaming sums coincide with the
pair sums of the pm25 × humidity projection. -/
theorem chunkSums_hum_pairs (rows : List SRow)
    (h : ∀ r ∈ rows, allPresent r = true) :
    sxyF (pairsOf (fun r => r.pm25) (fun r => r.humidity) rows)
        = (chunkSums rows).pm25_hum_products ∧
    sxF (pairsOf (fun r => r.pm25) (fun r => r.humidity) rows)
        = (chunkSums rows).pm25_sum ∧
    syF (pairsOf (fun r => r.pm25) (fun r => r.humidity) rows)
        = (chunkSums rows).hum_sum ∧
    sqxF (pairsOf (fun r => r.pm25) (fun r => r.humidity) rows)
        = (chunkSums rows).pm25_squared_sum ∧
    sqyF (pairsOf (fun r => r.pm25) (fun r => r.humidity) rows)
        = (chunkSums rows).hum_squared_sum ∧
    (pairsOf (fun r => r.pm25) (fun r => r.humidity) rows).length
        = (chunkSums rows).count := by
  rw [pairsOf_all_present _ _ rows (fun r hr => (allPresent_fields r (h r hr)).1)
    (fun r hr => (allPresent_fields r (h r hr)).2.2.2)]
  refine ⟨?_, ?_, ?_, ?_, ?_, ?_⟩ <;>
    simp [sxyF, sxF, syF, sqxF, sqyF, chunkSums, List.map_map, Function.comp_def]

/-- The closed-form Pearson coefficient over running sums equals the
centered-moments Pearson coefficient whenever both variances are
nonzero. -/
theorem closed_eq_centered (p : List (ℚ × ℚ)) (hx : sxxC p ≠ 0) (hy : syyC p ≠ 0) :
    calculateCorrelation (sxyF p) (sxF p) (syF p) (sqxF p) (sqyF p) p.length
      = (scovC p : ℝ) / Real.sqrt ((sxxC p * syyC p : ℚ) : ℝ) := by
  have hn : p.length ≠ 0 := length_ne_zero_of_sxxC_ne p hx
  have hnq : ((p.length : ℚ)) ≠ 0 := Nat.cast_ne_zero.mpr hn
  have hnr : (0 : ℝ) < (p.length : ℝ) := by
    exact_mod_cast Nat.pos_of_ne_zero hn
  have hxpos : 0 < sxxC p := lt_of_le_of_ne (sxxC_nonneg p) (Ne.symm hx)
  have hypos : 0 < syyC p := lt_of_le_of_ne (syyC_nonneg p) (Ne.symm hy)
  have hden : (((p.length : ℚ) * sqxF p - sxF p ^ 2) * ((p.length : ℚ) * sqyF p - syF p ^ 2))
      = (p.length : ℚ) ^ 2 * (sxxC p * syyC p) := by
    rw [← sxxC_eq p hn, ← syyC_eq p hn]
    ring
  have hprod : (0 : ℝ) < ((sxxC p * syyC p : ℚ) : ℝ) := by
    exact_mod_cast mul_pos hxpos hypos
  have hsqrt : Real.sqrt ((((p.length : ℚ) * sqxF p - sxF p ^ 2)
        * ((p.length : ℚ) * sqyF p - syF p ^ 2) : ℚ) : ℝ)
      = (p.length : ℝ) * Real.sqrt ((sxxC p * syyC p : ℚ) : ℝ) := by
    rw [hden]
    push_cast
    rw [Real.sqrt_mul (by positivity), Real.sqrt_sq (le_of_lt hnr)]
  have hsqrt_pos : 0 < Real.sqrt ((sxxC p * syyC p : ℚ) : ℝ) := Real.sqrt_pos.mpr hprod
  have hden_ne : (p.length : ℝ) * Real.sqrt ((sxxC p * syyC p : ℚ) : ℝ) ≠ 0 :=
    ne_of_gt (mul_pos hnr hsqrt_pos)
  simp only [calculateCorrelation]
  rw [hsqrt, if_neg hden_ne]
  have hnum : ((p.length : ℚ) * sxyF p - sxF p * syF p) = (p.length : ℚ) * scovC p :=
    (scovC_eq p hn).symm
  rw [hnum]
  push_cast
  rw [mul_div_mul_left _ _ (ne_of_gt hnr)]

def rows3na : List SRow :=
  [⟨0, some 0, some 0, some 0, some 0⟩,
   ⟨1, some 1, some 0, some 1, some 0⟩,
   ⟨2, some 2, some 0, some 0, none⟩]

/-- C1 (amended): the streaming accumulator is independent of the
chunking — any cut of the file yields the sums of the joined row list —
and when every row has all four metrics present (so the streaming
four-column `dropna` and the engine's pairwise-complete selection keep
the same rows) and both series of a pair have nonzero variance, the
engine's Pearson coefficient equals the streaming closed-form coefficient
exactly, for pm25 × temperature and pm25 × humidity alike. -/
theorem stream_refines_engine (chunks : List (List SRow)) (s e : Option ℤ)
    (h1 : ∀ r ∈ chunks.flatten, allPresent r = true)
    (hxT : sxxC (pairsOf (fun r => r.pm25) (fun r => r.temperature) chunks.flatten) ≠ 0)
    (hyT : syyC (pairsOf (fun r => r.pm25) (fun r => r.temperature) chunks.flatten) ≠ 0)
    (hxH : sxxC (pairsOf (fun r => r.pm25) (fun r => r.humidity) chunks.flatten) ≠ 0)
    (hyH : syyC (pairsOf (fun r => r.pm25) (fun r => r.humidity) chunks.flatten) ≠ 0) :
    runStream s e chunks = runStream s e [chunks.flatten] ∧
    pearsonCorr (pairsOf (fun r => r.pm25) (fun r => r.temperature) chunks.flatten)
      = some (streamCorrTemp none none chunks) ∧
    pearsonCorr (pairsOf (fun r => r.pm25) (fun r => r.humidity) chunks.flatten)
      = some (streamCorrHum none none chunks) := by
  have hfilter : chunks.flatten.filter allPresent = chunks.flatten := List.filter_eq_self.mpr h1
  have hrun : runStream none none chunks = chunkSums chunks.flatten := by
    rw [runStream_eq]
    simp only [dateFilter]
    rw [hfilter]
  refine ⟨?_, ?_, ?_⟩
  · rw [runStream_eq, runStream_eq]
    simp
  · obtain ⟨e1, e2, e3, e4, e5, e6⟩ := chunkSums_temp_pairs chunks.flatten h1
    rw [pearsonCorr, if_neg (by push_neg; exact ⟨hxT, hyT⟩)]
    rw [streamCorrTemp, hrun, ← e1, ← e2, ← e3, ← e4, ← e5, ← e6]
    rw [closed_eq_centered _ hxT hyT]
  · obtain ⟨e1, e2, e3, e4, e5, e6⟩ := chunkSums_hum_pairs chunks.flatten h1
    rw [pearsonCorr, if_neg (by push_neg; exact ⟨hxH, hyH⟩)]
    rw [streamCorrHum, hrun, ← e1, ← e2, ← e3, ← e4, ← e5, ← e6]
    rw [closed_eq_centered _ hxH hyH]

def wChunks : List (List SRow) :=
  [[⟨0, some 1, some 1, some 1, some 5⟩],
   [⟨1, some 2, some 1, some 2, some 1⟩, ⟨2, some 4, some 1, some 4, some 2⟩]]

/-- C1 witness: a three-row file with every metric present and
nonconstant series, cut into chunks of sizes 1 and 2. -/
theorem stream_refines_engine_witness :
    (∀ r ∈ wChunks.flatten, allPresent r = true) ∧
    sxxC (pairsOf (fun r => r.pm25) (fun r => r.temperature) wChunks.flatten) ≠ 0 ∧
    syyC (pairsOf (fun r => r.pm25) (fun r => r.temperature) wChunks.flatten) ≠ 0 ∧
    sxxC (pairsOf (fun r => r.pm25) (fun r => r.humidity) wChunks.flatten) ≠ 0 ∧
    syyC (pairsOf (fun r => r.pm25) (fun r => r.humidity) wChunks.flatten) ≠ 0 ∧
    (runStream none none wChunks = runStream none none [wChunks.flatten] ∧
      pearsonCorr (pairsOf (fun r => r.pm25) (fun r => r.temperature) wChunks.flatten)
        = some (streamCorrTemp none none wChunks) ∧
      pearsonCorr (pairsOf (fun r => r.pm25) (fun r => r.humidity) wChunks.flatten)
        = some (streamCorrHum none none wChunks)) := by
  have hp : pairsOf (fun r => r.pm25) (fun r => r.temperature) wChunks.flatten
      = [((1 : ℚ), 1), (2, 2), (4, 4)] := rfl
  have hq : pairsOf (fun r => r.pm25) (fun r => r.humidity) wChunks.flatten
      = [((1 : ℚ), 5), (2, 1), (4, 2)] := rfl
  have h1 : ∀ r ∈ wChunks.flatten, allPresent r = true := by decide
  have hxT : sxxC (pairsOf (fun r => r.pm25) (fun r => r.temperature) wChunks.flatten) ≠ 0 := by
    rw [hp]; norm_num [sxxC, sxF]
  have hyT : syyC (pairsOf (fun r => r.pm25) (fun r => r.temperature) wChunks.flatten) ≠ 0 := by
    rw [hp]; norm_num [syyC, syF]
  have hxH : sxxC (pairsOf (fun r => r.pm25) (fun r => r.humidity) wChunks.flatten) ≠ 0 := by
    rw [hq]; norm_num [sxxC, sxF]
  have hyH : syyC (pairsOf (fun r => r.pm25) (fun r => r.humidity) wChunks.flatten) ≠ 0 := by
    rw [hq]; norm_num [syyC, syF]
  exact ⟨h1, hxT, hyT, hxH, hyH,
    stream_refines_engine wChunks none none h1 hxT hyT hxH hyH⟩

/-- C1 counterexample: on a file with one humidity value missing, the
streaming aggregator drops the whole row (four-column `dropna`) while the
engine's pm25 × temperature correlation is pairwise-complete; the
streaming coefficient is 1 and the engine's is 0, which differ far beyond
3 decimal places. -/
theorem stream_vs_engine_counterexample :
    streamCorrTemp none none [rows3na] = 1 ∧
    pearsonCorr (pairsOf (fun r => r.pm25) (fun r => r.temperature) rows3na) = some 0 ∧
    ¬ |(1 : ℝ) - 0| < 1 / 1000 := by
  refine ⟨?_, ?_, by norm_num⟩
  · have hacc : runStream none none [rows3na] = ⟨1, 0, 1, 0, 1, 0, 1, 1, 0, 2⟩ := by
      norm_num [runStream, processChunk, dateFilter, rows3na, allPresent, chunkSums,
        StreamAcc.add, StreamAcc.zero]
    rw [streamCorrTemp, hacc]
    simp only [calculateCorrelation]
    norm_num [Real.sqrt_one]
  · have hpairs : pairsOf (fun r => r.pm25) (fun r => r.temperature) rows3na
        = [((0 : ℚ), 0), (1, 1), (2, 0)] := rfl
    rw [hpairs, pearsonCorr,
      if_neg (by push_neg; constructor <;> norm_num [sxxC, syyC, sxF, syF])]
    have hscov : scovC [((0 : ℚ), 0), (1, 1), (2, 0)] = 0 := by
      norm_num [scovC, sxF, syF]
    rw [hscov]
    norm_num

/-! ## Relabelling legacy columns to semantic names (Claim C6)

`rn` renames each legacy column code to its semantic name and leaves any
other column name unchanged; `relabelTable` applies it to the header and
to every row's keys, producing "the same data relabeled with semantic
names".
-/

def rn (k : String) : String :=
  if k = "field3" then "pm25"
  else if k = "field4" then "pm10"
  else if k = "field2" then "temperature"
  else if k = "field1" then "humidity"
  else k

def relabelFields (fields : List (String × Option ℚ)) : List (String × Option ℚ) :=
  fields.map (fun p => (rn p.1, p.2))

def relabelRow (r : RawRow) : RawRow := ⟨r.created_at, relabelFields r.fields⟩

def relabelTable (t : RawTable) : RawTable := ⟨t.cols.map rn, t.rows.map relabelRow⟩

/-- Hypothesis "pollutant data appears only under the legacy column names": no
semantic name occurs in the header. -/
def semFree (cols : List String) : Prop :=
  "pm25" ∉ cols ∧ "pm10" ∉ cols ∧ "temperature" ∉ cols ∧ "humidity" ∉ cols

instance (cols : List String) : Decidable (semFree cols) :=
  inferInstanceAs (Decidable (_ ∧ _ ∧ _ ∧ _))

def legOf (k : String) : Option Metric :=
  if k = "field3" then some .pm25
  else if k = "field4" then some .pm10
  else if k = "field2" then some .temperature
  else if k = "field1" then some .humidity
  else none

theorem rn_eq (k : String) :
    rn k = match legOf k with | some m => semName m | none => k := by
  unfold rn legOf
  split_ifs <;> rfl

theorem rn_legName (m : Metric) : rn (legName m) = semName m := by
  cases m <;> rfl

theorem legOf_legName (m : Metric) : legOf (legName m) = some m := by
  cases m <;> rfl

theorem legOf_eq_some (k : String) (m : Metric) (h : legOf k = some m) : k = legName m := by
  unfold legOf at h
  split_ifs at h with h1 h2 h3 h4 <;> cases m <;> simp_all [legName]

theorem semName_not_mem (m : Metric) (cols : List String) (hs : semFree cols) :
    semName m ∉ cols := by
  obtain ⟨h1, h2, h3, h4⟩ := hs
  cases m <;> assumption

theorem rn_inj_on (cols : List String) (hs : semFree cols) (a b : String)
    (ha : a ∈ cols) (hb : b ∈ cols) (h : rn a = rn b) : a = b := by
  rw [rn_eq, rn_eq] at h
  cases hA : legOf a with
  | some m =>
    cases hB : legOf b with
    | some m2 =>
      simp only [hA, hB] at h
      have hm : m = m2 := by
        cases m <;> cases m2 <;> first | rfl | exact absurd h (by decide)
      rw [legOf_eq_some a m hA, legOf_eq_some b m2 hB, hm]
    | none =>
      simp only [hA, hB] at h
      exact absurd (h ▸ hb) (semName_not_mem m cols hs)
  | none =>
    cases hB : legOf b with
    | some m2 =>
      simp only [hA, hB] at h
      exact absurd (h ▸ ha) (semName_not_mem m2 cols hs)
    | none => simpa [hA, hB] using h

theorem rn_ne_legName (k : String) (m : Metric) : rn k ≠ legName m := by
  rw [rn_eq]
  cases hA : legOf k with
  | some m2 => cases m <;> cases m2 <;> (dsimp only; decide)
  | none =>
    dsimp only
    intro h
    rw [h, legOf_legName] at hA
    simp at hA

theorem legName_not_mem_map_rn (cols : List String) (m : Metric) :
    legName m ∉ cols.map rn := by
  simp only [List.mem_map]
  rintro ⟨k, _, hrn⟩
  exact rn_ne_legName k m hrn

theorem sem_mem_map_rn (cols : List String) (hs : semFree cols) (m : Metric) :
    semName m ∈ cols.map rn ↔ legName m ∈ cols := by
  simp only [List.mem_map]
  constructor
  · rintro ⟨k, hk, hrn⟩
    rw [rn_eq] at hrn
    cases hA : legOf k with
    | some m2 =>
      simp only [hA] at hrn
      have hm : m2 = m := by
        cases m <;> cases m2 <;> first | rfl | exact absurd hrn (by decide)
      rw [← hm, ← legOf_eq_some k m2 hA]
      exact hk
    | none =>
      simp only [hA] at hrn
      exact absurd (hrn ▸ hk) (semName_not_mem m cols hs)
  · intro hl
    exact ⟨legName m, hl, rn_legName m⟩

theorem resolveLoad_relabel (m : Metric) (cols : List String) (hs : semFree cols) :
    resolveLoad m (cols.map rn) = (resolveLoad m cols).map rn := by
  have hmap : fieldMapping m = [legName m, semName m] := by cases m <;> rfl
  have hsem : semName m ∉ cols := semName_not_mem m cols hs
  have hleg2 : legName m ∉ cols.map rn := legName_not_mem_map_rn cols m
  have c1 : ¬ ((cols.map rn).contains (legName m) = true) := by
    simp only [List.elem_iff]
    exact hleg2
  have csem : ¬ (cols.contains (semName m) = true) := by
    simp only [List.elem_iff]
    exact hsem
  unfold resolveLoad
  rw [hmap]
  by_cases hl : legName m ∈ cols
  · have c2 : (cols.map rn).contains (semName m) = true := by
      simp only [List.elem_iff]
      exact (sem_mem_map_rn cols hs m).mpr hl
    have c3 : cols.contains (legName m) = true := by
      simp only [List.elem_iff]
      exact hl
    rw [List.find?_cons_of_neg _ c1, List.find?_cons_of_pos _ c2,
      List.find?_cons_of_pos _ c3]
    simp [rn_legName]
  · have c2 : ¬ ((cols.map rn).contains (semName m) = true) := by
      simp only [List.elem_iff]
      exact fun hc => hl ((sem_mem_map_rn cols hs m).mp hc)
    have c3 : ¬ (cols.contains (legName m) = true) := by
      simp only [List.elem_iff]
      exact hl
    rw [List.find?_cons_of_neg _ c1, List.find?_cons_of_neg _ c2,
      List.find?_cons_of_neg _ c3, List.find?_cons_of_neg _ csem]
    simp

theorem lookup_relabel (cols : List String) (hs : semFree cols)
    (fields : List (String × Option ℚ)) (hf : ∀ p ∈ fields, p.1 ∈ cols)
    (c : String) (hc : c ∈ cols) :
    lookupField (relabelFields fields) (rn c) = lookupField fields c := by
  induction fields with
  | nil => rfl
  | cons p ps ih =>
    have hp1 : p.1 ∈ cols := hf p (by simp)
    by_cases h : p.1 = c
    · unfold lookupField relabelFields
      simp only [List.map_cons]
      rw [List.find?_cons_of_pos _ (by simp [h]), List.find?_cons_of_pos _ (by simp [h])]
    · have hne : ¬ rn p.1 = rn c := fun hcon => h (rn_inj_on cols hs p.1 c hp1 hc hcon)
      unfold lookupField relabelFields
      simp only [List.map_cons]
      rw [List.find?_cons_of_neg _ (by simp [hne]), List.find?_cons_of_neg _ (by simp [h])]
      exact ih (fun q hq => hf q (by simp [hq]))

theorem resolveLoad_mem (m : Metric) (cols : List String) (c : String)
    (h : resolveLoad m cols = some c) : c ∈ cols := by
  have := List.find?_some h
  simpa using this

theorem resolvedCell_relabel (cols : List String) (hs : semFree cols) (m : Metric)
    (fields : List (String × Option ℚ)) (hf : ∀ p ∈ fields, p.1 ∈ cols) :
    resolvedCell (cols.map rn) m (relabelFields fields) = resolvedCell cols m fields := by
  unfold resolvedCell
  rw [resolveLoad_relabel m cols hs]
  cases hr : resolveLoad m cols with
  | none => rfl
  | some c =>
    simp only [Option.map_some]
    exact lookup_relabel cols hs fields hf c (resolveLoad_mem m cols c hr)

theorem resolveRow_relabel (cols : List String) (hs : semFree cols)
    (pr : ℤ × List (String × Option ℚ)) (hf : ∀ p ∈ pr.2, p.1 ∈ cols) :
    resolveRow (cols.map rn) (pr.1, relabelFields pr.2) = resolveRow cols pr := by
  unfold resolveRow
  simp only [resolvedCell_relabel cols hs _ pr.2 hf]

theorem orderedInsert_map (g : (ℤ × List (String × Option ℚ)) → (ℤ × List (String × Option ℚ)))
    (hg : ∀ x, (g x).1 = x.1) (a : ℤ × List (String × Option ℚ))
    (l : List (ℤ × List (String × Option ℚ))) :
    List.orderedInsert tsLE (g a) (l.map g) = (List.orderedInsert tsLE a l).map g := by
  induction l with
  | nil => rfl
  | cons b bs ih =>
    have hiff : tsLE (g a) (g b) ↔ tsLE a b := by simp [tsLE, hg]
    simp only [List.map_cons, List.orderedInsert]
    by_cases h : tsLE a b
    · rw [if_pos (hiff.mpr h), if_pos h]
      simp
    · rw [if_neg (fun hc => h (hiff.mp hc)), if_neg h]
      simp [ih]

theorem insertionSort_map (g : (ℤ × List (String × Option ℚ)) → (ℤ × List (String × Option ℚ)))
    (hg : ∀ x, (g x).1 = x.1) (l : List (ℤ × List (String × Option ℚ))) :
    List.insertionSort tsLE (l.map g) = (List.insertionSort tsLE l).map g := by
  induction l with
  | nil => rfl
  | cons a l ih =>
    simp only [List.map_cons, List.insertionSort, ih, orderedInsert_map g hg]

theorem parseRows_relabel (rows : List RawRow) :
    parseRows (rows.map relabelRow)
      = (parseRows rows).map (fun pr => (pr.1, relabelFields pr.2)) := by
  induction rows with
  | nil => rfl
  | cons r rs ih =>
    cases hca : r.created_at <;> simp [parseRows, relabelRow, hca] <;>
      simpa [parseRows] using ih

theorem loadData_relabel (t : RawTable) (s e : Option ℤ) (hs : semFree t.cols)
    (hf : ∀ r ∈ t.rows, ∀ p ∈ r.fields, p.1 ∈ t.cols) :
    loadData (some (relabelTable t)) s e = loadData (some t) s e := by
  have hres : (List.insertionSort tsLE (parseRows (t.rows.map relabelRow))).map
        (resolveRow (t.cols.map rn))
      = (List.insertionSort tsLE (parseRows t.rows)).map (resolveRow t.cols) := by
    rw [parseRows_relabel,
      insertionSort_map (fun pr => (pr.1, relabelFields pr.2)) (fun x => rfl),
      List.map_map]
    apply List.map_congr_left
    intro pr hpr
    have hmem : pr ∈ parseRows t.rows :=
      (List.Perm.mem_iff (List.perm_insertionSort tsLE (parseRows t.rows))).mp hpr
    have hkeys : ∀ p ∈ pr.2, p.1 ∈ t.cols := by
      obtain ⟨r, hr, heq⟩ := List.mem_filterMap.mp hmem
      cases hca : r.created_at with
      | none => rw [hca] at heq; simp at heq
      | some ts =>
        rw [hca] at heq
        have heq2 : (ts, r.fields) = pr := by simpa using heq
        intro p hp
        apply hf r hr
        rw [← heq2] at hp
        exact hp
    exact resolveRow_relabel t.cols hs pr hkeys
  simp only [loadData, relabelTable]
  rw [hres]

def legacyScenario : RawTable :=
  ⟨["created_at", "field3", "field4"],
   [⟨some 0, [("field3", some 5), ("field4", some 20)]⟩,
    ⟨some 60, [("field3", some 15), ("field4", some 40)]⟩]⟩

/-- C6: a dataset whose pollutant data appears only under the legacy
column names produces, through `load_data`, exactly the same resolved
frame — and hence an identical `calculate_statistics` StatSummary
(mean/median/min/max/std per metric) — as the same data relabeled with
the semantic names; in particular the spec's `field3 = [5, 15]` scenario
resolves to a pm25 mean of 10. -/
theorem legacy_relabel_equiv (t : RawTable) (s e : Option ℤ)
    (hs : semFree t.cols)
    (hf : ∀ r ∈ t.rows, ∀ p ∈ r.fields, p.1 ∈ t.cols) :
    loadData (some (relabelTable t)) s e = loadData (some t) s e ∧
    calculateStatistics (loadData (some (relabelTable t)) s e)
      = calculateStatistics (loadData (some t) s e) ∧
    ((calculateStatistics (loadData (some legacyScenario) none none)).pm25).map
        (fun ms => ms.mean) = some 10 := by
  have h := loadData_relabel t s e hs hf
  refine ⟨h, by rw [h], ?_⟩
  have hload : loadData (some legacyScenario) none none
      = some [⟨0, some 5, some 20, none, none⟩, ⟨60, some 15, some 40, none, none⟩] := rfl
  rw [hload]
  simp only [calculateStatistics]
  norm_num [metricSummary, pm25Vals, meanQ, List.filterMap_cons, List.filterMap_nil]

/-- C6 witness: a concrete two-row legacy-only table satisfies the
hypotheses, and relabelling it leaves `load_data` and the statistics
unchanged. -/
theorem legacy_relabel_equiv_witness :
    semFree legacyScenario.cols ∧
    (∀ r ∈ legacyScenario.rows, ∀ p ∈ r.fields, p.1 ∈ legacyScenario.cols) ∧
    (loadData (some (relabelTable legacyScenario)) none none
        = loadData (some legacyScenario) none none ∧
      calculateStatistics (loadData (some (relabelTable legacyScenario)) none none)
        = calculateStatistics (loadData (some legacyScenario) none none)) := by
  refine ⟨by decide, by decide, ?_⟩
  have h := legacy_relabel_equiv legacyScenario none none (by decide) (by decide)
  exact ⟨h.1, h.2.1⟩

end AirQual
